import Mathlib

/-!
Shallow embedding of the real-time face-swap application
(`face_swap.py` and `gui.py`).

Raster images and detected faces are opaque data, modelled as natural
numbers.  The two external models (the `FaceAnalysis` detector `app` and
the `inswapper` model `swapper`) are opaque callables that either return
a value or raise; they are modelled as functions into `Except String _`,
where `Except.error` stands for a raised Python exception.
-/

namespace FaceSwapApp

abbrev Img := Nat
abbrev Face := Nat

/-- The face-detection model `self.app`: `app.get(img)` returns the list of
detected faces, or raises. -/
abbrev AppModel := Img → Except String (List Face)

/-- The swap model `self.swapper`: `swapper.get(dst, dst_face, src_face,
paste_back)` returns an image, or raises. -/
abbrev SwapModel := Img → Face → Face → Bool → Except String Img

/-- State of a `FaceSwapper` object (`face_swap.py`): the loader thread's
aliveness, and the two model slots, `None` until `_load_models` fills them. -/
structure SwapperState where
  threadAlive : Bool
  app : Option AppModel
  swapper : Option SwapModel

/-- The body of the `try:` block of `FaceSwapper.swap_face`
(`face_swap.py` lines 103-120), with Python exception propagation:
detect faces in `src_img`, then in `dst_img`; return `dst_img` when either
list is empty; otherwise call the swap model on the first faces with
`paste_back=True`. -/
def swap_face_body (app : AppModel) (swapper : SwapModel)
    (src_img dst_img : Img) : Except String Img :=
  match app src_img with
  | Except.error e => Except.error e
  | Except.ok src_faces =>
    match app dst_img with
    | Except.error e => Except.error e
    | Except.ok dst_faces =>
      match src_faces, dst_faces with
      | [], _ => Except.ok dst_img
      | _ :: _, [] => Except.ok dst_img
      | sf :: _, df :: _ => swapper dst_img df sf true

/-- `FaceSwapper.swap_face` (`face_swap.py` lines 75-124) with Python
exception semantics: `Except.error` would mean an exception escaping to the
caller.  Early returns: loader thread still alive; either model slot `None`
(the code checks `not self.swapper or not self.app`).  The `except` clause
catches any exception from the `try:` body and returns `dst_img`. -/
def swap_face_call (st : SwapperState) (src_img dst_img : Img) :
    Except String Img :=
  if st.threadAlive then Except.ok dst_img
  else
    match st.swapper, st.app with
    | some swapper, some app =>
      match swap_face_body app swapper src_img dst_img with
      | Except.ok r => Except.ok r
      | Except.error _ => Except.ok dst_img
    | _, _ => Except.ok dst_img

/-- The value `swap_face` hands back to its caller (it never raises, as
proved below). -/
def swap_face (st : SwapperState) (src_img dst_img : Img) : Img :=
  match swap_face_call st src_img dst_img with
  | Except.ok r => r
  | Except.error _ => dst_img

/-! ## GUI shell (`gui.py`)

State of a `FaceSwapUI` window.  Qt widgets are modelled by the data the
code reads or writes on them: the source combo box by its item list and
current index, labels by their text, the capture handle and timer by small
records.  Wall-clock time is an abstract integer fed to `update_frame`. -/

/-- A `cv2.VideoCapture` handle: whether `isOpened()` holds, and whether
`release()` has been called on it. -/
structure CapState where
  isOpened : Bool
  released : Bool
  deriving DecidableEq

/-- A `QTimer`: whether it is running. -/
structure TimerState where
  active : Bool
  deriving DecidableEq

/-- State of the `FaceSwapUI` window: the embedded `FaceSwapper`, the
source-image dictionary (`src_images`, insertion-ordered like a Python
dict), the combo box, the capture/timer handles, the performance counters
and the visible widget texts the claims mention. -/
structure UIState where
  swapperSt : SwapperState
  src_img : Option Img
  src_images : List (String × Img)
  comboItems : List String
  comboIndex : Int
  cap : Option CapState
  timer : Option TimerState
  fps : Nat
  frame_count : Nat
  last_time : Int
  is_running : Bool
  faceChecked : Bool
  start_button_text : String
  status_bar : String
  cam_status : String
  src_status : String
  cam_pixmap : Option Img
  src_pixmap : Option Img
  fps_label : String
  progress_visible : Bool
  progress_value : Nat
  loading_visible : Bool

/-- `FaceSwapUI.__init__` together with `init_ui` (`gui.py` lines 59-366):
the field assignments observable in the model.  `sw` is the state of the
freshly constructed `FaceSwapper` (its loader thread has just been
started), `t0` the value of `time.time()` at construction. -/
def initState (sw : SwapperState) (t0 : Int) : UIState where
  swapperSt := sw
  src_img := none
  src_images := []
  comboItems := []
  comboIndex := -1
  cap := none
  timer := none
  fps := 0
  frame_count := 0
  last_time := t0
  is_running := true
  faceChecked := true
  start_button_text := "开始"
  status_bar := "就绪"
  cam_status := "等待检测人脸..."
  src_status := "等待选择源图片..."
  cam_pixmap := none
  src_pixmap := none
  fps_label := "FPS: 0"
  progress_visible := false
  progress_value := 0
  loading_visible := true

/-- Python-dict insertion on an association list: an existing key is
updated in place, a new key is appended. -/
def dictInsert (d : List (String × Img)) (k : String) (v : Img) :
    List (String × Img) :=
  match d with
  | [] => [(k, v)]
  | (k', v') :: rest =>
    if k' = k then (k, v) :: rest else (k', v') :: dictInsert rest k v

/-- `QComboBox.currentText()`: the item at the current index, or the empty
string when no index is current. -/
def comboCurrentText (st : UIState) : String :=
  if h : 0 ≤ st.comboIndex ∧ st.comboIndex.toNat < st.comboItems.length
  then st.comboItems.get ⟨st.comboIndex.toNat, h.2⟩
  else ""

/-- `FaceSwapUI.change_source_image` (`gui.py` lines 399-417).  When the
given index is inside `[0, count)` the method reads
`self.src_images[self.source_combo.currentText()]` — an `Except.error`
models the `KeyError` a missing key would raise — and updates the source
image, its preview pixmap and the status label; otherwise it does
nothing. -/
def change_source_image (st : UIState) (index : Int) : Except String UIState :=
  if 0 ≤ index ∧ index < (st.comboItems.length : Int) then
    match st.src_images.lookup (comboCurrentText st) with
    | some img =>
      Except.ok { st with
        src_img := some img
        src_pixmap := some img
        src_status := "等待检测人脸..." }
    | none => Except.error ("KeyError: " ++ comboCurrentText st)
  else Except.ok st

/-- One iteration of the `for file in files` loop of
`FaceSwapUI.add_source_image` (`gui.py` lines 384-397).  `load` is the
outcome of `cv2.imread(file)`: a raised exception (`Except.error`), `None`
(`Except.ok none`, silently skipped), or an image.  On success the image is
stored under the file's basename, the name is appended to the combo box
(Qt gives an empty combo box current index 0), and if the dictionary now
holds exactly one image `change_source_image(0)` is called; any exception
in the iteration is caught and surfaced as a warning dialog (the returned
`Option String`). -/
def add_one_file (st : UIState) (name : String)
    (load : Except String (Option Img)) : UIState × Option String :=
  match load with
  | Except.error e => (st, some ("加载图片失败: " ++ e))
  | Except.ok none => (st, none)
  | Except.ok (some img) =>
    let wasEmpty := st.comboItems.isEmpty
    let st1 := { st with
      src_images := dictInsert st.src_images name img
      comboItems := st.comboItems ++ [name]
      comboIndex := if wasEmpty then 0 else st.comboIndex }
    if st1.src_images.length = 1 then
      match change_source_image st1 0 with
      | Except.ok st2 => (st2, none)
      | Except.error e => (st1, some ("加载图片失败: " ++ e))
    else (st1, none)

/-- The `for file in files` loop of `FaceSwapUI.add_source_image`:
process each selected file in turn, collecting the warning dialogs
shown. -/
def add_source_files :
    UIState → List (String × Except String (Option Img)) →
      UIState × List String
  | st, [] => (st, [])
  | st, f :: fs =>
    let r := add_one_file st f.1 f.2
    let rest := add_source_files r.1 fs
    (rest.1, r.2.toList ++ rest.2)

/-- `FaceSwapUI.add_source_image` (`gui.py` lines 368-397): when the file
dialog is accepted, process each selected file. -/
def add_source_image (st : UIState) (dialogAccepted : Bool)
    (files : List (String × Except String (Option Img))) :
    UIState × List String :=
  if dialogAccepted then add_source_files st files else (st, [])

/-- Environment input to `start_camera`: whether `cv2.VideoCapture(0)`
yields an opened device. -/
structure StartInput where
  openSuccess : Bool
  deriving DecidableEq

/-- `FaceSwapUI.start_camera` (`gui.py` lines 435-462): assign a fresh
capture handle; if it is not opened, show a critical dialog (the returned
`Option String`) and return; otherwise set the resolution (no observable
effect in the model), create and start the 30ms timer, set `is_running`
and the status bar.  Note the method never consults the loader thread. -/
def start_camera (st : UIState) (inp : StartInput) : UIState × Option String :=
  let st1 := { st with cap := some { isOpened := inp.openSuccess, released := false } }
  if inp.openSuccess then
    ({ st1 with
        timer := some { active := true }
        is_running := true
        status_bar := "摄像头已启动" }, none)
  else (st1, some ("无法打开摄像头"))

/-- `FaceSwapUI.stop_camera` (`gui.py` lines 464-478): release the capture
handle when it is open, stop the timer when one exists, clear `is_running`
and update the status bar. -/
def stop_camera (st : UIState) : UIState :=
  let st1 :=
    match st.cap with
    | some c =>
      if c.isOpened then
        { st with cap := some { isOpened := false, released := true } }
      else st
    | none => st
  let st2 :=
    match st1.timer with
    | some _ => { st1 with timer := some { active := false } }
    | none => st1
  { st2 with is_running := false, status_bar := "摄像头已停止" }

/-- `FaceSwapUI.toggle_camera` (`gui.py` lines 419-433): stop when
`is_running`, start otherwise, then set the button label. -/
def toggle_camera (st : UIState) (inp : StartInput) : UIState × Option String :=
  if st.is_running then
    ({ stop_camera st with start_button_text := "开始" }, none)
  else
    let r := start_camera st inp
    ({ r.1 with start_button_text := "停止" }, r.2)

/-- Result of one `init_camera` step: the new state and whether the method
rescheduled itself with `QTimer.singleShot(500, self.init_camera)`. -/
structure InitOutcome where
  st : UIState
  rescheduled : Bool

/-- `FaceSwapUI.init_camera` (`gui.py` lines 501-517): while the loader
thread is alive, show the progress bar at 50 and poll again in 500ms;
once it has finished, hide the progress bar and the loading label.
Nothing else is touched — in particular no camera state. -/
def init_camera (st : UIState) : InitOutcome :=
  if st.swapperSt.threadAlive then
    ⟨{ st with progress_visible := true, progress_value := 50 }, true⟩
  else
    ⟨{ st with progress_visible := false, loading_visible := false }, false⟩

/-- Environment input to one `update_frame` tick: the outcome of
`self.cap.read()` (`none` models `ret == False`), the current wall-clock
time, and whether `self.lock.acquire(blocking=False)` succeeds. -/
structure FrameInput where
  readResult : Option Img
  now : Int
  lockFree : Bool

/-- Result of one `update_frame` tick: the new state and whether
`swap_face` was invoked during the tick. -/
structure FrameOutcome where
  st : UIState
  swapInvoked : Bool

/-- `FaceSwapUI.update_frame` (`gui.py` lines 519-571): return unchanged
when the capture is absent, not opened, or the read fails; update the FPS
counters once a second; when the non-blocking lock acquisition succeeds
and face detection is enabled with a source image selected, call
`swap_face` and display its result (`swap_face` never returns `None`, so
`display_frame = result`); otherwise display the raw frame; when the lock
is busy, skip swapping and display the raw frame. -/
def update_frame (st : UIState) (inp : FrameInput) : FrameOutcome :=
  match st.cap with
  | none => ⟨st, false⟩
  | some c =>
    if c.isOpened = false then ⟨st, false⟩
    else
      match inp.readResult with
      | none => ⟨st, false⟩
      | some frame =>
        let st1 := { st with frame_count := st.frame_count + 1 }
        let st2 :=
          if inp.now - st1.last_time ≥ 1 then
            { st1 with
                fps := st1.frame_count
                frame_count := 0
                last_time := inp.now
                fps_label := "FPS: " ++ toString st1.frame_count }
          else st1
        if inp.lockFree then
          match st2.src_img, st2.faceChecked with
          | some srcImg, true =>
            let result := swap_face st2.swapperSt srcImg frame
            ⟨{ st2 with
                cam_status := "检测到人脸"
                cam_pixmap := some result }, true⟩
          | none, _ =>
            ⟨{ st2 with
                cam_status := "请选择源图片"
                cam_pixmap := some frame }, false⟩
          | some _, false =>
            ⟨{ st2 with
                cam_status := "人脸检测已禁用"
                cam_pixmap := some frame }, false⟩
        else ⟨{ st2 with cam_pixmap := some frame }, false⟩

/-- The `__main__` block of `gui.py` (lines 602-619): `construct` is the
outcome of `FaceSwapUI()` followed by `window.show()` (an `Except.error`
models an exception escaping startup), `execCode` the value of
`app.exec_()`.  Returns the process exit code and the critical dialog
shown, if any.  A startup exception is caught, surfaced as a dialog, and
the process exits with code 1; otherwise the exit code is `app.exec_()`'s
result (`sys.exit` raises `SystemExit`, which `except Exception` does not
catch). -/
def main_entry (construct : Except String UIState) (execCode : Int) :
    Int × Option String :=
  match construct with
  | Except.ok _ => (execCode, none)
  | Except.error e => (1, some ("启动失败: " ++ e))

/-- The selection invariant of the source-image collection: every name in
the combo box is a key of `src_images`, and the combo box's current index
is `-1` exactly on an empty box and a valid position otherwise (Qt keeps
it so for a non-editable box whose items are only ever appended). -/
def selectionInvariant (st : UIState) : Prop :=
  (∀ n ∈ st.comboItems, (st.src_images.lookup n).isSome = true) ∧
  (st.comboItems = [] → st.comboIndex = -1) ∧
  (st.comboItems ≠ [] →
    0 ≤ st.comboIndex ∧ st.comboIndex < (st.comboItems.length : Int))

/-- A window state with an opened capture and a running timer, as after a
successful `start_camera`; used to instantiate theorems below. -/
def runningUI : UIState :=
  { initState ⟨false, none, none⟩ 0 with
      cap := some { isOpened := true, released := false }
      timer := some { active := true } }

/-! ## Theorems -/

lemma dictInsert_lookup (d : List (String × Img)) (k : String) (v : Img)
    (n : String) :
    (dictInsert d k v).lookup n = if n = k then some v else d.lookup n := by
  induction d with
  | nil =>
    by_cases h : n = k
    · simp [dictInsert, List.lookup, h]
    · simp [dictInsert, List.lookup, h, beq_eq_false_iff_ne.mpr h]
  | cons p rest ih =>
    obtain ⟨k', v'⟩ := p
    by_cases hk : k' = k
    · subst hk
      by_cases h : n = k'
      · simp [dictInsert, List.lookup, h]
      · simp [dictInsert, List.lookup, h, beq_eq_false_iff_ne.mpr h]
    · by_cases h : n = k
      · have hkk' : k ≠ k' := fun hc => hk hc.symm
        rw [h] at ih
        simp [dictInsert, List.lookup, hk, h, ih,
          beq_eq_false_iff_ne.mpr hkk']
      · by_cases h' : n = k'
        · simp [dictInsert, List.lookup, hk, h, h', ih]
        · simp [dictInsert, List.lookup, hk, h, ih,
            beq_eq_false_iff_ne.mpr h']

lemma swap_face_call_loaded (st : SwapperState) (app : AppModel)
    (swapper : SwapModel) (src_img dst_img : Img)
    (hA : st.threadAlive = false) (hs : st.swapper = some swapper)
    (ha : st.app = some app) :
    swap_face_call st src_img dst_img =
      match swap_face_body app swapper src_img dst_img with
      | Except.ok r => Except.ok r
      | Except.error _ => Except.ok dst_img := by
  simp [swap_face_call, hA, hs, ha]

lemma swap_face_call_exists_ok (st : SwapperState) (src_img dst_img : Img) :
    ∃ r, swap_face_call st src_img dst_img = Except.ok r := by
  unfold swap_face_call
  split
  · exact ⟨dst_img, rfl⟩
  · split
    · split
      · exact ⟨_, rfl⟩
      · exact ⟨dst_img, rfl⟩
    · exact ⟨dst_img, rfl⟩

/-- C1: whenever the loader thread is still alive, either model slot is
`None`, or detection returns an empty face list for the source or for the
target image, `swap_face` returns `dst_img` itself (and no exception
escapes: the call is `Except.ok`). -/
theorem swap_face_returns_dst_when_degraded (st : SwapperState)
    (src_img dst_img : Img)
    (h : st.threadAlive = true ∨ st.app = none ∨ st.swapper = none ∨
      (∃ app, st.app = some app ∧ app src_img = Except.ok []) ∨
      (∃ app, st.app = some app ∧ app dst_img = Except.ok [])) :
    swap_face_call st src_img dst_img = Except.ok dst_img := by
  by_cases hA : st.threadAlive = true
  · simp [swap_face_call, hA]
  · have hA' : st.threadAlive = false := by
      cases hth : st.threadAlive
      · rfl
      · exact absurd hth hA
    rcases hs : st.swapper with _ | swapper
    · cases hap : st.app <;> simp [swap_face_call, hA', hs, hap]
    · rcases h with h | h | h | ⟨app, hap, hz⟩ | ⟨app, hap, hz⟩
      · exact absurd h hA
      · simp [swap_face_call, hA', hs, h]
      · rw [h] at hs; exact absurd hs (by simp)
      · rw [swap_face_call_loaded st app swapper src_img dst_img hA' hs hap]
        simp only [swap_face_body, hz]
        cases hd : app dst_img <;> simp [hd]
      · rw [swap_face_call_loaded st app swapper src_img dst_img hA' hs hap]
        cases hsrc : app src_img with
        | error e => simp [swap_face_body, hsrc]
        | ok src_faces =>
          cases src_faces with
          | nil =>
            simp only [swap_face_body, hsrc]
            cases hd : app dst_img <;> simp [hd]
          | cons sf sfs => simp [swap_face_body, hsrc, hz]

/-- Witness for C1 at a concrete input: the loader thread is alive, so a
call on images `0`, `5` hands back `5`. -/
theorem swap_face_returns_dst_when_degraded_witness :
    swap_face_call ⟨true, none, none⟩ 0 5 = Except.ok 5 :=
  swap_face_returns_dst_when_degraded ⟨true, none, none⟩ 0 5 (Or.inl rfl)

/-- C2: `swap_face` never raises: with Python exception semantics the call
always terminates normally (`Except.ok`), with the value the pure model
gives; and whenever the `try:` body raises — for any exception from the
detection call or the swap-model call — the caller receives the original
`dst_img`. -/
theorem swap_face_never_raises (st : SwapperState) (src_img dst_img : Img) :
    swap_face_call st src_img dst_img =
      Except.ok (swap_face st src_img dst_img) ∧
    (∀ app swapper e, st.threadAlive = false → st.app = some app →
      st.swapper = some swapper →
      swap_face_body app swapper src_img dst_img = Except.error e →
      swap_face st src_img dst_img = dst_img) := by
  obtain ⟨r, hr⟩ := swap_face_call_exists_ok st src_img dst_img
  constructor
  · rw [hr]
    unfold swap_face
    rw [hr]
  · intro app swapper e hA hap hs herr
    unfold swap_face
    rw [swap_face_call_loaded st app swapper src_img dst_img hA hs hap, herr]

/-- Witness for C2 at a concrete input: a detector that always raises; the
call still returns `Except.ok` and hands back the target image `1`. -/
theorem swap_face_never_raises_witness :
    (swap_face_call
        ⟨false, some (fun _ => Except.error ("boom")),
          some (fun _ _ _ _ => Except.ok 7)⟩ 0 1 =
      Except.ok (swap_face
        ⟨false, some (fun _ => Except.error ("boom")),
          some (fun _ _ _ _ => Except.ok 7)⟩ 0 1)) ∧
    swap_face
      ⟨false, some (fun _ => Except.error ("boom")),
        some (fun _ _ _ _ => Except.ok 7)⟩ 0 1 = 1 := by
  refine ⟨(swap_face_never_raises _ 0 1).1, ?_⟩
  exact (swap_face_never_raises _ 0 1).2 _ _ "boom" rfl rfl rfl rfl

/-- C3: when the loader thread has finished, both models are present,
detection finds faces `sf :: sfs` in the source and `df :: dfs` in the
target, and the swap model returns `r` on `(dst_img, df, sf, paste_back =
true)`, the call returns exactly `r`. -/
theorem swap_face_composites_first_faces (st : SwapperState)
    (src_img dst_img : Img) (app : AppModel) (swapper : SwapModel)
    (sf df : Face) (sfs dfs : List Face) (r : Img)
    (hA : st.threadAlive = false) (hap : st.app = some app)
    (hs : st.swapper = some swapper)
    (hsrc : app src_img = Except.ok (sf :: sfs))
    (hdst : app dst_img = Except.ok (df :: dfs))
    (hswap : swapper dst_img df sf true = Except.ok r) :
    swap_face st src_img dst_img = r := by
  unfold swap_face
  rw [swap_face_call_loaded st app swapper src_img dst_img hA hs hap]
  simp [swap_face_body, hsrc, hdst, hswap]

/-- Witness for C3 at a concrete input: detector `i ↦ [i + 10]`, swap model
`(d, df, sf) ↦ 100 * d + 10 * df + sf`; on images `1`, `2` the result is
`100 * 2 + 10 * 12 + 11 = 331`. -/
theorem swap_face_composites_first_faces_witness :
    swap_face
      ⟨false, some (fun i => Except.ok [i + 10]),
        some (fun d df sf _ => Except.ok (100 * d + 10 * df + sf))⟩ 1 2 =
      331 :=
  swap_face_composites_first_faces _ 1 2 _ _ 11 12 [] [] 331
    rfl rfl rfl rfl rfl rfl

/-- C9: a freshly constructed window has `is_running = True` although no
camera was ever started, so the very first `toggle_camera` takes the stop
branch: it calls `stop_camera` (the status bar reads "摄像头已停止"), sets
the button text to the start label "开始", and leaves the camera
unstarted (`cap` and `timer` still absent, `is_running` now `False`). -/
theorem fresh_window_first_toggle_stops (sw : SwapperState) (t0 : Int)
    (inp : StartInput) :
    (initState sw t0).is_running = true ∧
    (toggle_camera (initState sw t0) inp).1.is_running = false ∧
    (toggle_camera (initState sw t0) inp).1.start_button_text = "开始" ∧
    (toggle_camera (initState sw t0) inp).1.status_bar = "摄像头已停止" ∧
    (toggle_camera (initState sw t0) inp).1.cap = none ∧
    (toggle_camera (initState sw t0) inp).1.timer = none ∧
    (toggle_camera (initState sw t0) inp).2 = none := by
  exact ⟨rfl, rfl, rfl, rfl, rfl, rfl, rfl⟩

/-- C6: after any `stop_camera` call, `is_running` is `False` and the
status bar was updated; a capture handle that was open has been released
(and is no longer open); a timer that exists has been stopped. -/
theorem stop_camera_releases_and_halts (st : UIState) :
    (stop_camera st).is_running = false ∧
    (stop_camera st).status_bar = "摄像头已停止" ∧
    (∀ c, st.cap = some c → c.isOpened = true →
      (stop_camera st).cap = some { isOpened := false, released := true }) ∧
    (∀ t, st.timer = some t →
      (stop_camera st).timer = some { active := false }) := by
  refine ⟨rfl, rfl, ?_, ?_⟩
  · intro c hc ho
    rcases ht : st.timer with _ | t <;>
      simp [stop_camera, hc, ho, ht]
  · intro t ht
    rcases hc : st.cap with _ | c
    · simp [stop_camera, hc, ht]
    · by_cases ho : c.isOpened = true <;>
        simp [stop_camera, hc, ho, ht]

/-- Witness for C6 at a concrete input: a window with an opened capture
and a running timer; after `stop_camera` the capture is released, the
timer stopped, and `is_running` is `False`. -/
theorem stop_camera_releases_and_halts_witness :
    (stop_camera runningUI).is_running = false ∧
    (stop_camera runningUI).cap =
      some { isOpened := false, released := true } ∧
    (stop_camera runningUI).timer = some { active := false } :=
  ⟨(stop_camera_releases_and_halts runningUI).1,
    (stop_camera_releases_and_halts runningUI).2.2.1
      { isOpened := true, released := false } rfl rfl,
    (stop_camera_releases_and_halts runningUI).2.2.2
      { active := true } rfl⟩

/-- C10: when the capture object is absent, not opened, or the frame read
fails, `update_frame` returns with the whole window state unchanged (so in
particular `fps`, `frame_count`, `last_time`, the camera status text and
the displayed pixmap are untouched) and `swap_face` was not invoked. -/
theorem update_frame_early_return_unchanged (st : UIState) (inp : FrameInput)
    (h : st.cap = none ∨ (∃ c, st.cap = some c ∧ c.isOpened = false) ∨
      inp.readResult = none) :
    update_frame st inp = ⟨st, false⟩ := by
  rcases h with h | ⟨c, hc, ho⟩ | h
  · simp [update_frame, h]
  · simp [update_frame, hc, ho]
  · rcases hc : st.cap with _ | c
    · simp [update_frame, hc]
    · by_cases ho : c.isOpened = false
      · simp [update_frame, hc, ho]
      · simp [update_frame, hc, ho, h]

/-- Witness for C10 at a concrete input: a fresh window (no capture);
an `update_frame` tick leaves the state exactly as it was. -/
theorem update_frame_early_return_unchanged_witness :
    update_frame (initState ⟨false, none, none⟩ 0) ⟨some 5, 0, true⟩ =
      ⟨initState ⟨false, none, none⟩ 0, false⟩ :=
  update_frame_early_return_unchanged (initState ⟨false, none, none⟩ 0)
    ⟨some 5, 0, true⟩ (Or.inl rfl)

/-- C4: on a tick where the non-blocking lock acquisition fails,
`update_frame` does not invoke `swap_face`, and — when a frame was
actually read from an open capture — it displays that raw frame, leaving
the camera status text unchanged; the tick merely skips swapping. -/
theorem lock_busy_tick_skips_swap (st : UIState) (inp : FrameInput)
    (h : inp.lockFree = false) :
    (update_frame st inp).swapInvoked = false ∧
    (∀ c frame, st.cap = some c → c.isOpened = true →
      inp.readResult = some frame →
      (update_frame st inp).st.cam_pixmap = some frame ∧
      (update_frame st inp).st.cam_status = st.cam_status) := by
  constructor
  · rcases hc : st.cap with _ | c
    · simp [update_frame, hc]
    · by_cases ho : c.isOpened = false
      · simp [update_frame, hc, ho]
      · rcases hr : inp.readResult with _ | frame
        · simp [update_frame, hc, ho, hr]
        · simp only [update_frame, hc, ho, hr, h]
          split <;> simp
  · intro c frame hc ho hr
    constructor
    · simp [update_frame, hc, ho, hr, h]
    · simp [update_frame, hc, ho, hr, h]
      split <;> rfl

/-- Witness for C4 at a concrete input: a running window, a read frame
`9`, and a busy lock; the tick invokes no swap and displays the raw
frame. -/
theorem lock_busy_tick_skips_swap_witness :
    (update_frame runningUI ⟨some 9, 0, false⟩).swapInvoked = false ∧
    (update_frame runningUI ⟨some 9, 0, false⟩).st.cam_pixmap = some 9 ∧
    (update_frame runningUI ⟨some 9, 0, false⟩).st.cam_status =
      runningUI.cam_status :=
  ⟨(lock_busy_tick_skips_swap runningUI ⟨some 9, 0, false⟩ rfl).1,
    ((lock_busy_tick_skips_swap runningUI ⟨some 9, 0, false⟩ rfl).2
      { isOpened := true, released := false } 9 rfl rfl rfl).1,
    ((lock_busy_tick_skips_swap runningUI ⟨some 9, 0, false⟩ rfl).2
      { isOpened := true, released := false } 9 rfl rfl rfl).2⟩

/-- Counterexample to C5 as stated: a window whose loader thread is still
alive (models not yet loaded) on which `start_camera` is called with a
device that opens; the capture is opened, the timer started and
`is_running` set — camera capture is enabled while loading is
incomplete, with no dialog. -/
theorem start_camera_while_loading_counterexample :
    (initState ⟨true, none, none⟩ 0).swapperSt.threadAlive = true ∧
    (start_camera (initState ⟨true, none, none⟩ 0) ⟨true⟩).1.is_running =
      true ∧
    (start_camera (initState ⟨true, none, none⟩ 0) ⟨true⟩).1.timer =
      some { active := true } ∧
    (start_camera (initState ⟨true, none, none⟩ 0) ⟨true⟩).1.cap =
      some { isOpened := true, released := false } ∧
    (start_camera (initState ⟨true, none, none⟩ 0)
        ⟨true⟩).1.swapperSt.threadAlive = true ∧
    (start_camera (initState ⟨true, none, none⟩ 0) ⟨true⟩).2 = none :=
  ⟨rfl, rfl, rfl, rfl, rfl, rfl⟩

/-- C5 (amended): the GUI polls load-completion only to drive the loading
indicator: while the loader thread is alive `init_camera` shows the
progress bar at 50 and reschedules itself, touching no camera state; once
the thread has finished it hides the progress bar and the loading label.
`start_camera` itself never consults the loader thread: with an opening
device it starts the capture and the timer regardless of the loading
state (the swap operation degrades per-frame while loading instead). -/
theorem init_camera_gates_indicator_only :
    (∀ st : UIState, st.swapperSt.threadAlive = true →
      (init_camera st).rescheduled = true ∧
      (init_camera st).st.progress_visible = true ∧
      (init_camera st).st.progress_value = 50 ∧
      (init_camera st).st.cap = st.cap ∧
      (init_camera st).st.timer = st.timer ∧
      (init_camera st).st.is_running = st.is_running) ∧
    (∀ st : UIState, st.swapperSt.threadAlive = false →
      (init_camera st).rescheduled = false ∧
      (init_camera st).st.progress_visible = false ∧
      (init_camera st).st.loading_visible = false ∧
      (init_camera st).st.cap = st.cap ∧
      (init_camera st).st.timer = st.timer ∧
      (init_camera st).st.is_running = st.is_running) ∧
    (∀ (st : UIState) (inp : StartInput), inp.openSuccess = true →
      (start_camera st inp).1.is_running = true ∧
      (start_camera st inp).1.timer = some { active := true } ∧
      (start_camera st inp).1.cap =
        some { isOpened := true, released := false } ∧
      (start_camera st inp).1.swapperSt = st.swapperSt) := by
  refine ⟨?_, ?_, ?_⟩
  · intro st h
    simp [init_camera, h]
  · intro st h
    simp [init_camera, h]
  · intro st inp h
    simp [start_camera, h]

/-- Witness for the amended C5 at concrete inputs: a loading window is
only rescheduled, and `start_camera` on it still starts the camera. -/
theorem init_camera_gates_indicator_only_witness :
    (init_camera (initState ⟨true, none, none⟩ 0)).rescheduled = true ∧
    (init_camera (initState ⟨false, none, none⟩ 0)).rescheduled = false ∧
    (start_camera (initState ⟨true, none, none⟩ 0) ⟨true⟩).1.is_running =
      true :=
  ⟨(init_camera_gates_indicator_only.1 (initState ⟨true, none, none⟩ 0)
      rfl).1,
    (init_camera_gates_indicator_only.2.1 (initState ⟨false, none, none⟩ 0)
      rfl).1,
    (init_camera_gates_indicator_only.2.2 (initState ⟨true, none, none⟩ 0)
      ⟨true⟩ rfl).1⟩

/-- C8: no GUI-level error is fatal except an unhandled startup exception:
an exception escaping window construction exits the process with code 1
after a critical dialog, a normal startup exits with `app.exec_()`'s
code; a camera-open failure shows a critical dialog and `start_camera`
returns with the timer, `is_running` and status bar untouched; an
exception while loading one image shows a warning dialog and leaves the
state unchanged (the loop goes on to the next file). -/
theorem gui_errors_nonfatal_except_startup :
    (∀ (e : String) (execCode : Int),
      main_entry (Except.error e) execCode = (1, some ("启动失败: " ++ e))) ∧
    (∀ (st : UIState) (execCode : Int),
      main_entry (Except.ok st) execCode = (execCode, none)) ∧
    (∀ st : UIState,
      (start_camera st ⟨false⟩).2 = some ("无法打开摄像头") ∧
      (start_camera st ⟨false⟩).1.is_running = st.is_running ∧
      (start_camera st ⟨false⟩).1.timer = st.timer ∧
      (start_camera st ⟨false⟩).1.status_bar = st.status_bar) ∧
    (∀ (st : UIState) (name e : String),
      add_one_file st name (Except.error e) =
        (st, some ("加载图片失败: " ++ e))) := by
  refine ⟨fun e c => rfl, fun st c => rfl, ?_, fun st name e => rfl⟩
  intro st
  exact ⟨rfl, rfl, rfl, rfl⟩

lemma change_source_image_ok_of_inv (st : UIState) (idx : Int)
    (h : selectionInvariant st)
    (hin : 0 ≤ idx ∧ idx < (st.comboItems.length : Int)) :
    ∃ img, st.src_images.lookup (comboCurrentText st) = some img ∧
      change_source_image st idx = Except.ok { st with
        src_img := some img
        src_pixmap := some img
        src_status := "等待检测人脸..." } := by
  have hne : st.comboItems ≠ [] := by
    intro h0
    rw [h0] at hin
    simp at hin
    omega
  obtain ⟨hci0, hcilt⟩ := h.2.2 hne
  have hlt : st.comboIndex.toNat < st.comboItems.length := by omega
  have hmem : comboCurrentText st ∈ st.comboItems := by
    unfold comboCurrentText
    rw [dif_pos ⟨hci0, hlt⟩]
    exact List.get_mem _ _ _
  obtain ⟨img, himg⟩ := Option.isSome_iff_exists.mp (h.1 _ hmem)
  refine ⟨img, himg, ?_⟩
  unfold change_source_image
  rw [if_pos hin, himg]

lemma change_source_image_preserves (st st' : UIState) (idx : Int)
    (h : selectionInvariant st)
    (he : change_source_image st idx = Except.ok st') :
    selectionInvariant st' := by
  by_cases hin : 0 ≤ idx ∧ idx < (st.comboItems.length : Int)
  · obtain ⟨img, _, hok⟩ := change_source_image_ok_of_inv st idx h hin
    rw [hok] at he
    injection he with he'
    rw [← he']
    exact h
  · unfold change_source_image at he
    rw [if_neg hin] at he
    injection he with he'
    rw [← he']
    exact h

lemma add_one_file_preserves (st : UIState) (name : String)
    (load : Except String (Option Img)) (h : selectionInvariant st) :
    selectionInvariant (add_one_file st name load).1 := by
  match load with
  | Except.error e => exact h
  | Except.ok none => exact h
  | Except.ok (some img) =>
    have h1 : selectionInvariant
        { st with
            src_images := dictInsert st.src_images name img
            comboItems := st.comboItems ++ [name]
            comboIndex := if st.comboItems.isEmpty then 0 else st.comboIndex } := by
      refine ⟨?_, ?_, ?_⟩
      · intro n hn
        show ((dictInsert st.src_images name img).lookup n).isSome = true
        rw [dictInsert_lookup]
        by_cases hnk : n = name
        · simp [hnk]
        · rw [if_neg hnk]
          rcases List.mem_append.mp hn with hn' | hn'
          · exact h.1 n hn'
          · simp at hn'
            exact absurd hn' hnk
      · intro h0
        exact absurd h0 (by simp)
      · intro _
        show 0 ≤ (if st.comboItems.isEmpty then 0 else st.comboIndex) ∧
          (if st.comboItems.isEmpty then 0 else st.comboIndex) <
            ((st.comboItems ++ [name]).length : Int)
        by_cases hemp : st.comboItems.isEmpty
        · simp [hemp]
        · have hne : st.comboItems ≠ [] := by
            simpa [List.isEmpty_iff] using hemp
          obtain ⟨h0, hlt⟩ := h.2.2 hne
          rw [if_neg hemp]
          refine ⟨h0, ?_⟩
          simp only [List.length_append, List.length_cons, List.length_nil]
          omega
    show selectionInvariant (add_one_file st name (Except.ok (some img))).1
    unfold add_one_file
    simp only []
    split
    · split
      · next st2 heq => exact change_source_image_preserves _ st2 0 h1 heq
      · exact h1
    · exact h1

lemma add_source_files_preserves (files : List (String × Except String (Option Img)))
    (st : UIState) (h : selectionInvariant st) :
    selectionInvariant (add_source_files st files).1 := by
  induction files generalizing st with
  | nil => exact h
  | cons f fs ih =>
    exact ih _ (add_one_file_preserves _ _ _ h)

/-- C7: the selection invariant — every name in the combo box is a key of
`src_images`, and the current index references an existing entry — holds
of a fresh window and is preserved by `add_source_image`; under it,
`change_source_image` never raises a `KeyError` (the dictionary access
succeeds), it preserves the invariant, and it leaves the state untouched
whenever the given index is outside `[0, count)`. -/
theorem selection_invariant_maintained :
    (∀ (sw : SwapperState) (t0 : Int), selectionInvariant (initState sw t0)) ∧
    (∀ (st : UIState) (accepted : Bool)
      (files : List (String × Except String (Option Img))),
      selectionInvariant st →
      selectionInvariant (add_source_image st accepted files).1) ∧
    (∀ (st : UIState) (idx : Int), selectionInvariant st →
      ∃ st', change_source_image st idx = Except.ok st' ∧
        selectionInvariant st' ∧
        ((idx < 0 ∨ (st.comboItems.length : Int) ≤ idx) → st' = st)) := by
  refine ⟨?_, ?_, ?_⟩
  · intro sw t0
    refine ⟨?_, fun _ => rfl, fun h0 => absurd rfl h0⟩
    intro n hn
    exact absurd hn (List.not_mem_nil n)
  · intro st accepted files h
    unfold add_source_image
    by_cases ha : accepted = true
    · rw [if_pos ha]
      exact add_source_files_preserves files st h
    · rw [if_neg (by simpa using ha)]
      exact h
  · intro st idx h
    by_cases hin : 0 ≤ idx ∧ idx < (st.comboItems.length : Int)
    · obtain ⟨img, _, hok⟩ := change_source_image_ok_of_inv st idx h hin
      refine ⟨_, hok, change_source_image_preserves st _ idx h hok, ?_⟩
      intro hout
      rcases hout with hout | hout <;> omega
    · refine ⟨st, ?_, h, fun _ => rfl⟩
      unfold change_source_image
      rw [if_neg hin]

/-- Witness for C7 at concrete inputs: a fresh window satisfies the
invariant, it survives adding a file `a.png` holding image `3`, and
`change_source_image 0` on the fresh window returns normally. -/
theorem selection_invariant_maintained_witness :
    selectionInvariant (initState ⟨false, none, none⟩ 0) ∧
    selectionInvariant
      (add_source_image (initState ⟨false, none, none⟩ 0) true
        [("a.png", Except.ok (some 3))]).1 ∧
    ∃ st', change_source_image (initState ⟨false, none, none⟩ 0) 0 =
      Except.ok st' := by
  refine ⟨selection_invariant_maintained.1 _ 0,
    selection_invariant_maintained.2.1 _ true _
      (selection_invariant_maintained.1 _ 0), ?_⟩
  obtain ⟨st', h1, -, -⟩ :=
    selection_invariant_maintained.2.2 (initState ⟨false, none, none⟩ 0) 0
      (selection_invariant_maintained.1 _ 0)
  exact ⟨st', h1⟩

end FaceSwapApp
